import Mathlib

/-!
Verification of the FollowUp AI data-collection platform core.

The development shallowly embeds the repository's logic:
* the SQL trigger `create_default_client_folders` and the core schema
  constraints (migration file);
* the `handleApprove` / `handleReject` handlers of `src/pages/Approvals.tsx`;
* the `loadStats` dashboard statistics of `src/pages/Dashboard.tsx`;
* the request/item/reminder/schedule engines, which the repository only
  declares (schema columns, list pages) but does not implement; those are
  modelled from the specification document, as marked in each doc comment.
-/

namespace FollowupAi

/-- Roles of platform users, from the `users.role` CHECK constraint. -/
inductive Role
  | super_admin
  | admin
  | manager
  | team_member
  | client
deriving DecidableEq, Repr

/-- Folder types, from the `client_folders.folder_type` CHECK constraint. -/
inductive FolderType
  | kyc
  | legal
  | finance
  | hr
  | project
  | custom
deriving DecidableEq, Repr

/-- Data-request statuses, from the `data_requests.status` CHECK constraint. -/
inductive ReqStatus
  | draft
  | sent
  | in_progress
  | completed
  | cancelled
deriving DecidableEq, Repr

/-- Task statuses, from the `tasks.status` CHECK constraint. -/
inductive TaskStatus
  | not_started
  | in_progress
  | waiting_on_client
  | completed
  | overdue
  | cancelled
deriving DecidableEq, Repr

/-- Task occurrence statuses, from the `task_occurrences.status` CHECK. -/
inductive OccStatus
  | pending
  | in_progress
  | completed
  | overdue
  | skipped
deriving DecidableEq, Repr

/-- Reminder statuses, from the `reminders.status` CHECK constraint. -/
inductive RemStatus
  | pending
  | sent
  | failed
  | cancelled
deriving DecidableEq, Repr

/-- Task type, from the `tasks.task_type` CHECK constraint. -/
inductive TaskType
  | one_time
  | recurring
deriving DecidableEq, Repr

/-- Recurrence frequencies, from the `schedule_frequency` CHECK constraint. -/
inductive Frequency
  | daily
  | weekly
  | monthly
  | quarterly
  | yearly
  | custom
deriving DecidableEq, Repr

/-- Approval actions, from the `approvals.action` CHECK constraint
(a `null` action means the approval is still pending). -/
inductive ApprAction
  | approved
  | rejected
  | re_request
deriving DecidableEq, Repr

/-- Checklist item statuses, from `request_checklist_items.status`. -/
inductive ItemStatus
  | not_received
  | received
  | under_review
  | approved
  | rejected
  | re_requested
deriving DecidableEq, Repr

/-! ## Users and the client-folder trigger (migration `part_010`) -/

/-- A row of the `users` table, restricted to the columns the
`create_default_client_folders` trigger reads. -/
structure UserRow where
  id : String
  organization_id : Option String
  role : Role
deriving DecidableEq, Repr

/-- A row of the `client_folders` table, restricted to the columns the
trigger writes. -/
structure ClientFolder where
  organization_id : String
  client_id : String
  name : String
  folder_type : FolderType
  description : String
  sort_order : Nat
  created_by : String
deriving DecidableEq, Repr

/-- The `folder_types` array of the trigger. -/
def folderTypes : List FolderType := [.kyc, .legal, .finance, .hr]

/-- The `folder_names` array of the trigger. -/
def folderNames : List String :=
  ["KYC Documents", "Legal Documents", "Finance Documents", "HR Documents"]

/-- One folder row inserted by the trigger body for 1-based loop index `i`
(the SQL arrays are 1-indexed; here `i` ranges over `1..4`). -/
def defaultFolder (org uid : String) (i : Nat) : ClientFolder :=
  { organization_id := org
    client_id := uid
    name := folderNames.getD (i - 1) ""
    folder_type := folderTypes.getD (i - 1) .custom
    description := "Default " ++ folderNames.getD (i - 1) "" ++ " folder"
    sort_order := i
    created_by := uid }

/-- The `create_default_client_folders` trigger function: the list of
`client_folders` rows inserted for a newly inserted `users` row.
Folders are created only when `NEW.role = 'client'` and
`NEW.organization_id IS NOT NULL`; otherwise nothing is inserted. -/
def create_default_client_folders (u : UserRow) : List ClientFolder :=
  match u.organization_id with
  | some org =>
      if u.role = .client then
        [1, 2, 3, 4].map (defaultFolder org u.id)
      else []
  | none => []

/-- The `client_folders` table after the `AFTER INSERT` trigger fires for
a newly inserted user row. -/
def foldersAfterInsert (folders : List ClientFolder) (u : UserRow) :
    List ClientFolder :=
  folders ++ create_default_client_folders u

/-! ## Dashboard statistics (`src/pages/Dashboard.tsx`, `loadStats`) -/

/-- The fields of the `Stats` interface in `Dashboard.tsx`. -/
structure Stats where
  pendingRequests : Nat
  completedRequests : Nat
  overdueItems : Nat
  activeTasks : Nat
deriving DecidableEq, Repr

/-- A loaded `data_requests` row as the dashboard query selects it
(only the `status` column). -/
structure StatRequest where
  status : ReqStatus
deriving DecidableEq, Repr

/-- A loaded `tasks` row as the dashboard query selects it. -/
structure StatTask where
  status : TaskStatus
deriving DecidableEq, Repr

/-- The client branch of `loadStats` in `Dashboard.tsx` (lines 43-65):
filters of the loaded request/task statuses. -/
def loadStatsClient (reqs : List StatRequest) (tasks : List StatTask) : Stats :=
  { pendingRequests :=
      (reqs.filter (fun r =>
        decide (r.status = .sent) || decide (r.status = .in_progress))).length
    completedRequests :=
      (reqs.filter (fun r => decide (r.status = .completed))).length
    overdueItems :=
      (reqs.filter (fun r => decide (r.status = .in_progress))).length
    activeTasks :=
      (tasks.filter (fun t => decide (t.status = .in_progress))).length }

/-- The organization branch of `loadStats` in `Dashboard.tsx`
(lines 66-89); it differs from the client branch only in `activeTasks`. -/
def loadStatsOrg (reqs : List StatRequest) (tasks : List StatTask) : Stats :=
  { pendingRequests :=
      (reqs.filter (fun r =>
        decide (r.status = .sent) || decide (r.status = .in_progress))).length
    completedRequests :=
      (reqs.filter (fun r => decide (r.status = .completed))).length
    overdueItems :=
      (reqs.filter (fun r => decide (r.status = .in_progress))).length
    activeTasks :=
      (tasks.filter (fun t =>
        decide (t.status = .in_progress) || decide (t.status = .not_started))).length }

/-! ## Approval handlers (`src/pages/Approvals.tsx`) -/

/-- A row of the `approvals` table, restricted to the columns the
`handleApprove` / `handleReject` handlers read or write. -/
structure ApprovalRow where
  id : String
  action : Option ApprAction
  remarks : Option String
  reviewed_at : Option Nat
  reviewer_id : Option String
deriving DecidableEq, Repr

/-- The logged-in profile consulted by the handlers. -/
structure Profile where
  id : String
deriving DecidableEq, Repr

/-- Errors named by the specification for the approval workflow; the
embedded handlers can be observed to never return them. -/
inductive ApprovalError
  | alreadyReviewedError
  | missingRemarksError
deriving DecidableEq, Repr

/-- `handleApprove` (`Approvals.tsx` lines 76-98): if no profile is loaded
the handler returns without touching the table; otherwise it issues an
unconditional `update` setting `action = 'approved'`, `reviewed_at = now`
and `reviewer_id = profile.id` on every row whose `id` matches the
argument.  No check of the row's current `action` is performed and no
error value is ever produced. -/
def handleApprove (profile : Option Profile) (db : List ApprovalRow)
    (id : String) (now : Nat) : Except ApprovalError (List ApprovalRow) :=
  match profile with
  | none => .ok db
  | some p =>
      .ok (db.map (fun a =>
        if a.id = id then
          { a with action := some .approved
                   reviewed_at := some now
                   reviewer_id := some p.id }
        else a))

/-- The effective rejection remarks of `handleReject`: the JavaScript
expression `remarks || prompt(...)` followed by the falsy test
`if (!rejectionRemarks) return`.  An empty-string argument falls through
to the prompt result; `none` models a dismissed prompt. -/
def effectiveRemarks (remarks promptRes : Option String) : Option String :=
  match remarks with
  | some s => if s = "" then promptRes else some s
  | none => promptRes

/-- `handleReject` (`Approvals.tsx` lines 100-126): with no profile or a
falsy effective remarks value the handler silently returns, leaving the
table unchanged; otherwise it issues an unconditional `update` setting
`action = 'rejected'`, `remarks`, `reviewed_at = now` and
`reviewer_id = profile.id` on every row whose `id` matches.  No error
value is ever produced. -/
def handleReject (profile : Option Profile) (db : List ApprovalRow)
    (id : String) (remarks promptRes : Option String) (now : Nat) :
    Except ApprovalError (List ApprovalRow) :=
  match profile with
  | none => .ok db
  | some p =>
      match effectiveRemarks remarks promptRes with
      | none => .ok db
      | some s =>
          if s = "" then .ok db
          else
            .ok (db.map (fun a =>
              if a.id = id then
                { a with action := some .rejected
                         remarks := some s
                         reviewed_at := some now
                         reviewer_id := some p.id }
              else a))

/-! ## Schedule calculator

Modelled from the spec: the repository stores the schedule columns
(`schedule_frequency`, `schedule_day_rule`, `schedule_start_date`,
`schedule_end_date`, `next_run_date`) but contains no implementation of
the `next_occurrence` calculator of spec section 4.1; the functions below
follow the spec's words. -/

/-- A recurrence rule (spec section 4.1): an optional frequency, a start
date and an optional end date.  Dates are modelled as day numbers. -/
structure ScheduleRule where
  frequency : Option Frequency
  start_date : Nat
  end_date : Option Nat
deriving DecidableEq, Repr

/-- Modelled from the spec: the day advance of each non-custom frequency
(spec section 4.1 gives no calendar table, so a fixed day count per
frequency stands in for the calendar arithmetic). -/
def freqStep : Frequency → Nat
  | .daily => 1
  | .weekly => 7
  | .monthly => 30
  | .quarterly => 91
  | .yearly => 365
  | .custom => 0

/-- Modelled from the spec: the raw next date a rule computes from the
reference date `after`, before the end-date boundary is enforced.
`custom` delegates to the pluggable evaluator `ev` and enforces the
monotonicity invariant (the result must be strictly after `after`);
an absent frequency is an invalid rule and yields `none`. -/
def computedNext (ev : Nat → Nat) (rule : ScheduleRule) (after : Nat) :
    Option Nat :=
  match rule.frequency with
  | none => none
  | some .custom =>
      if ev after ≤ after then none else some (ev after)
  | some f => some (after + freqStep f)

/-- Modelled from the spec: `next_occurrence(rule, after)` (spec section
4.1).  Returns the computed next date unless the rule has an `end_date`
and the computed date falls strictly after it, in which case the rule is
exhausted and `none` is returned. -/
def next_occurrence (ev : Nat → Nat) (rule : ScheduleRule) (after : Nat) :
    Option Nat :=
  match computedNext ev rule after with
  | none => none
  | some d =>
      match rule.end_date with
      | some e => if e < d then none else some d
      | none => some d

/-! ## Checklist item state machine and request status derivation

Modelled from the spec: the repository declares the
`request_checklist_items.status` CHECK constraint and the
`data_requests.status` CHECK constraint but implements no transition or
derivation logic; the definitions below follow spec sections 4.2/4.3. -/

/-- A `request_checklist_items` row, restricted to the columns the state
machine of spec section 4.2 touches (`cycle` is the internal
request-cycle counter of section 4.2). -/
structure ChecklistItem where
  particular : String
  is_mandatory : Bool
  status : ItemStatus
  submitted_at : Option Nat
  cycle : Nat
deriving DecidableEq, Repr

/-- Modelled from the spec: the events driving the item state machine
(spec section 4.2): the client submits a document, a reviewer starts or
concludes review. -/
inductive ItemEvent
  | submit (now : Nat)
  | startReview
  | approve
  | reject
  | reRequest
deriving DecidableEq, Repr

/-- Modelled from the spec: one transition of the checklist item state
machine (spec section 4.2).  Invalid transitions yield `none`
(`InvalidTransitionError`); `re_requested` clears `submitted_at` and
increments the cycle counter. -/
def itemStep (it : ChecklistItem) (e : ItemEvent) : Option ChecklistItem :=
  match e with
  | .submit now =>
      if it.status = .not_received ∨ it.status = .re_requested then
        some { it with status := .received, submitted_at := some now }
      else none
  | .startReview =>
      if it.status = .received then
        some { it with status := .under_review }
      else none
  | .approve =>
      if it.status = .received ∨ it.status = .under_review then
        some { it with status := .approved }
      else none
  | .reject =>
      if it.status = .received ∨ it.status = .under_review then
        some { it with status := .rejected }
      else none
  | .reRequest =>
      if it.status = .received ∨ it.status = .under_review then
        some { it with
                 status := .re_requested
                 submitted_at := none
                 cycle := it.cycle + 1 }
      else none

/-- Modelled from the spec: apply an event to the item at position `i`
of the checklist; a rejected (invalid) transition leaves the list
unchanged, matching the synchronous reject-the-operation policy of spec
section 7. -/
def applyItemEvent (items : List ChecklistItem) (i : Nat) (e : ItemEvent) :
    List ChecklistItem :=
  match items.get? i with
  | none => items
  | some it =>
      match itemStep it e with
      | none => items
      | some it2 => items.set i it2

/-- Modelled from the spec: apply a sequence of indexed item events. -/
def applyItemEvents (evs : List (Nat × ItemEvent))
    (items : List ChecklistItem) : List ChecklistItem :=
  evs.foldl (fun its ie => applyItemEvent its ie.1 ie.2) items

/-- Every mandatory checklist item is `approved` (spec section 4.3:
non-mandatory item states do not block completion). -/
def mandatoryApproved (items : List ChecklistItem) : Bool :=
  items.all (fun i => !i.is_mandatory || decide (i.status = .approved))

/-- Some item has progressed past `not_received` (spec section 4.3). -/
def anyProgress (items : List ChecklistItem) : Bool :=
  items.any (fun i => decide (i.status ≠ .not_received))

/-- Some item is not yet approved or rejected (spec section 4.3). -/
def anyOpen (items : List ChecklistItem) : Bool :=
  items.any (fun i =>
    decide (i.status ≠ .approved) && decide (i.status ≠ .rejected))

/-- Some item is `re_requested` (spec section 4.3). -/
def anyReRequested (items : List ChecklistItem) : Bool :=
  items.any (fun i => decide (i.status = .re_requested))

/-- Modelled from the spec: the derived status of a data request (spec
section 4.3), recomputed from its checklist items.  `cancelled` is the
explicit terminal state; an unsent request stays `draft`; a sent request
is `completed` exactly when every mandatory item is approved, otherwise
`in_progress` or `sent` according to item progress. -/
def deriveStatus (sentFlag cancelledFlag : Bool)
    (items : List ChecklistItem) : ReqStatus :=
  if cancelledFlag then .cancelled
  else if !sentFlag then .draft
  else if mandatoryApproved items then .completed
  else if (anyOpen items && anyProgress items) || anyReRequested items then
    .in_progress
  else .sent

/-! ## Reminder and retry engine

Modelled from the spec: the repository declares the `reminders` table
and a read-only listing page (`part_004`) but implements no dispatch or
retry logic; the definitions below follow spec section 4.5. -/

/-- A `reminders` row, restricted to the dispatch-relevant columns
(`retry_count` / `max_retries` appear in the listing page `part_004`
with default `max_retries = 3`). -/
structure Reminder where
  status : RemStatus
  retry_count : Nat
  max_retries : Nat
  scheduled_at : Nat
  sent_at : Option Nat
deriving DecidableEq, Repr

/-- The outcome of one channel-sender call (spec section 4.5). -/
inductive DispatchOutcome
  | success (now : Nat)
  | failure
deriving DecidableEq, Repr

/-- Modelled from the spec: the dispatch sweep attempts a reminder only
while its status is `pending` (spec section 5: the sweep scans for
reminders with `status = pending`). -/
def dispatchAttempted (r : Reminder) : Bool :=
  decide (r.status = .pending)

/-- Modelled from the spec: one dispatch attempt (spec section 4.5).
A non-`pending` reminder is not attempted.  On success status becomes
`sent` with `sent_at = now`; on failure `retry_count` is incremented and
the reminder stays `pending` while the new count is below `max_retries`,
otherwise it becomes `failed`. -/
def dispatchStep (r : Reminder) (o : DispatchOutcome) : Reminder :=
  if r.status = .pending then
    match o with
    | .success now => { r with status := .sent, sent_at := some now }
    | .failure =>
        let n := r.retry_count + 1
        if n < r.max_retries then { r with retry_count := n }
        else { r with retry_count := n, status := .failed }
  else r

/-- A sequence of dispatch attempts. -/
def runDispatch (r : Reminder) (os : List DispatchOutcome) : Reminder :=
  os.foldl dispatchStep r

/-- Well-formedness of a reminder: a pending reminder still has retries
left, and the count never exceeds the bound.  Fresh reminders
(`retry_count = 0`, `max_retries ≥ 1`) satisfy it. -/
def RemWf (r : Reminder) : Prop :=
  (r.status = .pending → r.retry_count < r.max_retries) ∧
    r.retry_count ≤ r.max_retries

/-- Modelled from the spec: the fresh reminder scheduled when an item is
re-requested (spec section 4.5): a new reminder with
`retry_count = 0` and the default `max_retries = 3`, not a retry of the
old one. -/
def freshReminder (at_ : Nat) : Reminder :=
  { status := .pending
    retry_count := 0
    max_retries := 3
    scheduled_at := at_
    sent_at := none }

/-- Modelled from the spec: the `re_requested` transition together with
its reminder side effect (spec sections 4.2/4.5): the item transition is
validated by `itemStep`, and on success a fresh reminder cycle is
scheduled, ignoring the prior cycle's reminder entirely. -/
def reRequestItem (it : ChecklistItem) (_oldRem : Reminder) (now : Nat) :
    Option (ChecklistItem × Reminder) :=
  match itemStep it .reRequest with
  | none => none
  | some it2 => some (it2, freshReminder now)

/-! ## Task / occurrence generator

Modelled from the spec: the repository declares `task_occurrences` with
`UNIQUE(task_id, occurrence_date)` (migration `part_010` line 340) but
implements no generator; the definitions below follow spec section 4.4,
with the uniqueness constraint realised as the duplicate no-op check. -/

/-- A `tasks` row, restricted to the scheduling columns. -/
structure TaskRec where
  id : String
  task_type : TaskType
  schedule_frequency : Option Frequency
  next_run_date : Option Nat
  status : TaskStatus
  completed_at : Option Nat
deriving DecidableEq, Repr

/-- A `task_occurrences` row. -/
structure TaskOccurrence where
  task_id : String
  occurrence_date : Nat
  due_date : Nat
  status : OccStatus
deriving DecidableEq, Repr

/-- The `(task_id, occurrence_date)` key test of the uniqueness
constraint of migration `part_010`. -/
def occKey (taskId : String) (d : Nat) (o : TaskOccurrence) : Bool :=
  decide (o.task_id = taskId) && decide (o.occurrence_date = d)

/-- The generator error surfaced for a non-recurring rule
(`InvalidScheduleError`, spec sections 4.1/7). -/
inductive GenError
  | invalidSchedule
deriving DecidableEq, Repr

/-- Modelled from the spec: generate the occurrence of task `t` for the
run date `d` (spec section 4.4).  Passing a non-recurring task is an
`InvalidScheduleError`; an occurrence already present for the
`(task_id, occurrence_date)` key makes the attempt a no-op, not an
error; otherwise a `pending` occurrence with
`due_date = occurrence_date + SLA` is inserted. -/
def generateOccurrence (t : TaskRec) (d : Nat) (slaDays : Nat)
    (occs : List TaskOccurrence) : Except GenError (List TaskOccurrence) :=
  if t.task_type = .one_time then .error .invalidSchedule
  else if occs.any (occKey t.id d) then .ok occs
  else
    .ok ({ task_id := t.id
           occurrence_date := d
           due_date := d + slaDays
           status := .pending } :: occs)

/-! ## Task operations and the non-recurring invariant

Modelled from the spec: the repository never inserts or updates `tasks`
rows (its pages only read them), so the creating and mutating operations
are modelled from spec sections 3 and 4.4. -/

/-- The form data from which a task is created (schedule fields are only
meaningful for recurring tasks, spec section 3). -/
structure TaskForm where
  id : String
  task_type : TaskType
  schedule_frequency : Option Frequency
  next_run_date : Option Nat
deriving DecidableEq, Repr

/-- Modelled from the spec: task creation (spec section 3): schedule
fields are only meaningful if recurring, and a non-recurring task never
gets a `next_run_date`. -/
def mkTask (f : TaskForm) : TaskRec :=
  { id := f.id
    task_type := f.task_type
    schedule_frequency :=
      if f.task_type = .recurring then f.schedule_frequency else none
    next_run_date :=
      if f.task_type = .recurring then f.next_run_date else none
    status := .not_started
    completed_at := none }

/-- Modelled from the spec: the mutating operations on a task row:
the generator advancing `next_run_date` (spec section 4.4, recurring
tasks only), status changes and completion. -/
inductive TaskOp
  | advanceSchedule (d : Option Nat)
  | setStatus (s : TaskStatus)
  | complete (now : Nat)
deriving DecidableEq, Repr

/-- Modelled from the spec: apply one operation to a task row; only the
generator touches `next_run_date`, and only for recurring tasks. -/
def applyTaskOp (t : TaskRec) (op : TaskOp) : TaskRec :=
  match op with
  | .advanceSchedule d =>
      if t.task_type = .recurring then { t with next_run_date := d } else t
  | .setStatus s => { t with status := s }
  | .complete now => { t with status := .completed, completed_at := some now }

/-- Apply a sequence of task operations. -/
def applyTaskOps (ops : List TaskOp) (t : TaskRec) : TaskRec :=
  ops.foldl applyTaskOp t

/-! ## Theorems -/

/-- Claim C9: in the dashboard statistics computation, the overdue-items
count equals the number of data requests whose status is `in_progress`,
for every list of loaded requests and for both the client branch and the
organization branch of `loadStats`. -/
theorem c9_overdue_is_in_progress_count (reqs : List StatRequest)
    (tasks : List StatTask) :
    (loadStatsClient reqs tasks).overdueItems =
      reqs.countP (fun r => decide (r.status = .in_progress)) ∧
    (loadStatsOrg reqs tasks).overdueItems =
      reqs.countP (fun r => decide (r.status = .in_progress)) := by
  constructor <;>
    simp [loadStatsClient, loadStatsOrg, List.countP_eq_length_filter]

/-- Claim C10: inserting a user row with role `client` and a non-null
`organization_id` fires the trigger and creates exactly four
`client_folders` rows of types kyc, legal, finance, hr with sort_order
1..4 and `created_by` (and `client_id`) equal to the new user's id;
any other role, or a null organization, creates no folders. -/
theorem c10_trigger_creates_default_folders (u : UserRow) :
    (∀ org, u.organization_id = some org → u.role = .client →
        create_default_client_folders u =
          [defaultFolder org u.id 1, defaultFolder org u.id 2,
           defaultFolder org u.id 3, defaultFolder org u.id 4] ∧
        (create_default_client_folders u).length = 4 ∧
        (create_default_client_folders u).map (fun f => f.folder_type) =
          [.kyc, .legal, .finance, .hr] ∧
        (create_default_client_folders u).map (fun f => f.sort_order) =
          [1, 2, 3, 4] ∧
        ∀ f ∈ create_default_client_folders u,
          f.created_by = u.id ∧ f.client_id = u.id ∧
            f.organization_id = org) ∧
    ((u.role ≠ .client ∨ u.organization_id = none) →
        create_default_client_folders u = []) := by
  constructor
  · intro org horg hrole
    have hc : create_default_client_folders u =
        [defaultFolder org u.id 1, defaultFolder org u.id 2,
         defaultFolder org u.id 3, defaultFolder org u.id 4] := by
      unfold create_default_client_folders
      rw [horg]
      simp [hrole]
    refine ⟨hc, ?_, ?_, ?_, ?_⟩
    · rw [hc]; rfl
    · rw [hc]; rfl
    · rw [hc]; rfl
    · rw [hc]
      intro f hf
      simp only [List.mem_cons, List.not_mem_nil, or_false] at hf
      rcases hf with h | h | h | h <;> subst h <;>
        exact ⟨rfl, rfl, rfl⟩
  · rintro (hrole | horg)
    · unfold create_default_client_folders
      cases ho : u.organization_id with
      | none => rfl
      | some org => simp [hrole]
    · unfold create_default_client_folders
      rw [horg]

/-- Witness for C10: a concrete client user with an organization gets the
four default folders; a concrete client user without an organization
gets none. -/
theorem c10_witness :
    create_default_client_folders ⟨"u1", some "o1", .client⟩ =
      [defaultFolder "o1" "u1" 1, defaultFolder "o1" "u1" 2,
       defaultFolder "o1" "u1" 3, defaultFolder "o1" "u1" 4] ∧
    create_default_client_folders ⟨"u2", none, .client⟩ = [] ∧
    create_default_client_folders ⟨"u3", some "o1", .admin⟩ = [] := by
  refine ⟨?_, ?_, ?_⟩
  · exact ((c10_trigger_creates_default_folders
      ⟨"u1", some "o1", .client⟩).1 "o1" rfl rfl).1
  · exact (c10_trigger_creates_default_folders
      ⟨"u2", none, .client⟩).2 (Or.inr rfl)
  · exact (c10_trigger_creates_default_folders
      ⟨"u3", some "o1", .admin⟩).2 (Or.inl (by simp))

/-- Counterexample for C5: the claim predicts that `approve` fails with
`AlreadyReviewedError` when the approval's action is already set; on an
already-rejected approval `handleApprove` instead succeeds and
overwrites the action to `approved`. -/
theorem c5_counterexample :
    (some ApprAction.rejected ≠ (none : Option ApprAction)) ∧
    handleApprove (some ⟨"rev"⟩)
        [⟨"a1", some .rejected, none, some 1, some "r0"⟩] "a1" 5 =
      .ok [⟨"a1", some .approved, none, some 5, some "rev"⟩] := by
  exact ⟨by simp, rfl⟩

/-- Claim C5 (amended): `handleApprove` never fails with
`AlreadyReviewedError`: whether or not the action is already set, it
returns successfully having set `action = approved`,
`reviewed_at = now` and `reviewer_id = reviewer` on every row matching
the id; a second approve call on the same approval also succeeds. -/
theorem c5_approve_unconditional (p : Profile) (db : List ApprovalRow)
    (id : String) (now : Nat) :
    handleApprove (some p) db id now =
      .ok (db.map (fun a =>
        if a.id = id then
          { a with action := some .approved, reviewed_at := some now,
                   reviewer_id := some p.id }
        else a)) ∧
    (∀ db2, handleApprove (some p) db id now = .ok db2 →
        ∀ a ∈ db2, a.id = id →
          a.action = some .approved ∧ a.reviewed_at = some now ∧
            a.reviewer_id = some p.id) ∧
    (∀ now2 db2, handleApprove (some p) db id now = .ok db2 →
        ∃ db3, handleApprove (some p) db2 id now2 = .ok db3) := by
  refine ⟨rfl, ?_, ?_⟩
  · intro db2 h a ha hid
    unfold handleApprove at h
    injection h with h
    subst h
    rcases List.mem_map.mp ha with ⟨b, hb, hfb⟩
    by_cases hbid : b.id = id
    · rw [if_pos hbid] at hfb
      subst hfb
      exact ⟨rfl, rfl, rfl⟩
    · rw [if_neg hbid] at hfb
      subst hfb
      exact absurd hid hbid
  · intro now2 db2 h
    exact ⟨_, rfl⟩

/-- Witness for C5 (amended): on a concrete already-reviewed approval,
the approve handler succeeds and the matching row carries the new
reviewer and action. -/
theorem c5_witness :
    ({ id := "a1", action := some .approved, remarks := none,
       reviewed_at := some 5, reviewer_id := some "rev" } :
        ApprovalRow).action = some ApprAction.approved ∧
    ({ id := "a1", action := some .approved, remarks := none,
       reviewed_at := some 5, reviewer_id := some "rev" } :
        ApprovalRow).reviewed_at = some 5 := by
  have h := (c5_approve_unconditional ⟨"rev"⟩
    [⟨"a1", some .rejected, none, some 1, some "r0"⟩] "a1" 5).2.1
    [⟨"a1", some .approved, none, some 5, some "rev"⟩] rfl
    ⟨"a1", some .approved, none, some 5, some "rev"⟩ (by simp) rfl
  exact ⟨h.1, h.2.1⟩

/-- Counterexample for C7: the claim predicts that `reject` with empty
remarks fails with `MissingRemarksError`; with an empty remarks argument
and a dismissed prompt, `handleReject` instead returns successfully as a
silent no-op. -/
theorem c7_counterexample :
    handleReject (some ⟨"rev"⟩)
        [⟨"a1", none, none, none, none⟩] "a1" (some "") none 5 =
      .ok [⟨"a1", none, none, none, none⟩] ∧
    (Except.ok [(⟨"a1", none, none, none, none⟩ : ApprovalRow)] :
        Except ApprovalError (List ApprovalRow)) ≠
      .error .missingRemarksError := by
  exact ⟨rfl, fun h => Except.noConfusion h⟩

/-- Claim C7 (amended): `handleReject` with an empty effective remarks
value (argument empty or missing, prompt dismissed or empty) leaves the
approvals table unchanged but raises no `MissingRemarksError`, returning
silently; with non-empty remarks it sets `action = rejected` together
with `remarks`, `reviewed_at` and `reviewer_id` on every row matching
the id. -/
theorem c7_reject_requires_remarks (p : Profile) (db : List ApprovalRow)
    (id : String) (now : Nat) :
    (∀ remarks promptRes,
        (effectiveRemarks remarks promptRes = none ∨
          effectiveRemarks remarks promptRes = some "") →
        handleReject (some p) db id remarks promptRes now = .ok db) ∧
    (∀ remarks promptRes s, effectiveRemarks remarks promptRes = some s →
        s ≠ "" →
        handleReject (some p) db id remarks promptRes now =
          .ok (db.map (fun a =>
            if a.id = id then
              { a with action := some .rejected, remarks := some s,
                       reviewed_at := some now, reviewer_id := some p.id }
            else a))) := by
  constructor
  · rintro remarks promptRes (h | h) <;> simp [handleReject, h]
  · intro remarks promptRes s h hs
    unfold handleReject
    rw [h]
    simp [hs]

/-- Witness for C7 (amended): a concrete no-op call with empty remarks,
and a concrete successful rejection with remarks provided. -/
theorem c7_witness :
    handleReject (some ⟨"rev"⟩)
        [⟨"a2", none, none, none, none⟩] "a2" none (some "") 5 =
      .ok [⟨"a2", none, none, none, none⟩] ∧
    handleReject (some ⟨"rev"⟩)
        [⟨"a2", none, none, none, none⟩] "a2" (some "bad scan") none 5 =
      .ok [⟨"a2", some .rejected, some "bad scan", some 5, some "rev"⟩] := by
  constructor
  · exact (c7_reject_requires_remarks ⟨"rev"⟩
      [⟨"a2", none, none, none, none⟩] "a2" 5).1 none (some "")
      (Or.inr rfl)
  · exact (c7_reject_requires_remarks ⟨"rev"⟩
      [⟨"a2", none, none, none, none⟩] "a2" 5).2 (some "bad scan") none
      "bad scan" rfl (by simp)

/-- Claim C2: for every recurrence rule with an end_date and every
reference date `after`, `next_occurrence` never returns a date after
end_date, and returns `none` once the rule is exhausted (the computed
next date would fall after end_date). -/
theorem c2_next_occurrence_respects_end_date (ev : Nat → Nat)
    (rule : ScheduleRule) (after e : Nat) (he : rule.end_date = some e) :
    (∀ d, next_occurrence ev rule after = some d → d ≤ e) ∧
    (∀ d, computedNext ev rule after = some d → e < d →
        next_occurrence ev rule after = none) := by
  constructor
  · intro d h
    cases hc : computedNext ev rule after with
    | none =>
        simp only [next_occurrence, hc] at h
        exact Option.noConfusion h
    | some d0 =>
        simp only [next_occurrence, hc, he] at h
        by_cases hlt : e < d0
        · rw [if_pos hlt] at h
          exact absurd h (by simp)
        · rw [if_neg hlt] at h
          injection h with h
          subst h
          exact Nat.le_of_not_lt hlt
  · intro d h hgt
    simp only [next_occurrence, h, he, if_pos hgt]

/-- Witness for C2: a daily rule ending on day 10 still fires from day
8 (returning day 9, within the bound) and is exhausted from day 10. -/
theorem c2_witness :
    next_occurrence (fun n => n + 1) ⟨some .daily, 0, some 10⟩ 8 = some 9 ∧
    9 ≤ 10 ∧
    next_occurrence (fun n => n + 1) ⟨some .daily, 0, some 10⟩ 10 = none := by
  refine ⟨rfl, ?_, ?_⟩
  · exact (c2_next_occurrence_respects_end_date (fun n => n + 1)
      ⟨some .daily, 0, some 10⟩ 8 10 rfl).1 9 rfl
  · exact (c2_next_occurrence_respects_end_date (fun n => n + 1)
      ⟨some .daily, 0, some 10⟩ 10 10 rfl).2 11 rfl (by decide)

/-- Claim C3: for every recurring task and run date, the occurrence
generator succeeds, a second generation for the same run date is a no-op
returning the same table without error, and starting from a table with
no occurrence for the `(task_id, occurrence_date)` key it leaves exactly
one such occurrence. -/
theorem generateOccurrence_recurring (t : TaskRec) (d slaDays : Nat)
    (occs : List TaskOccurrence) (ht : t.task_type = .recurring) :
    generateOccurrence t d slaDays occs =
      if occs.any (occKey t.id d) then .ok occs
      else
        .ok ({ task_id := t.id, occurrence_date := d,
               due_date := d + slaDays, status := .pending } :: occs) := by
  have hne : ¬t.task_type = .one_time := by
    rw [ht]; intro h; exact TaskType.noConfusion h
  unfold generateOccurrence
  rw [if_neg hne]

theorem c3_generator_idempotent (t : TaskRec) (d slaDays : Nat)
    (occs : List TaskOccurrence) (ht : t.task_type = .recurring) :
    (∃ occs1, generateOccurrence t d slaDays occs = .ok occs1) ∧
    (∀ occs1, generateOccurrence t d slaDays occs = .ok occs1 →
        generateOccurrence t d slaDays occs1 = .ok occs1 ∧
        (occs.countP (occKey t.id d) = 0 →
          occs1.countP (occKey t.id d) = 1)) := by
  have hrw : ∀ os : List TaskOccurrence,
      generateOccurrence t d slaDays os =
        if os.any (occKey t.id d) then .ok os
        else
          .ok ({ task_id := t.id, occurrence_date := d,
                 due_date := d + slaDays, status := .pending } :: os) :=
    fun os => generateOccurrence_recurring t d slaDays os ht
  simp only [hrw]
  by_cases ha : occs.any (occKey t.id d)
  · rw [if_pos ha]
    refine ⟨⟨occs, rfl⟩, ?_⟩
    intro occs1 h
    injection h with h
    subst h
    rw [if_pos ha]
    refine ⟨rfl, ?_⟩
    intro h0
    rcases List.any_eq_true.mp ha with ⟨x, hx, hpx⟩
    exact absurd hpx (by simpa using List.countP_eq_zero.mp h0 x hx)
  · rw [if_neg ha]
    refine ⟨⟨_, rfl⟩, ?_⟩
    intro occs1 h
    injection h with h
    subst h
    have hkey : occKey t.id d
        { task_id := t.id, occurrence_date := d, due_date := d + slaDays,
          status := .pending } = true := by
      simp [occKey]
    constructor
    · rw [if_pos (by simp [hkey])]
    · intro h0
      rw [List.countP_cons_of_pos _ _ hkey, h0]

/-- Witness for C3: generating the day-5 occurrence of a concrete
recurring task twice from an empty table yields exactly one occurrence
and no error. -/
theorem c3_witness :
    generateOccurrence ⟨"t1", .recurring, some .monthly, some 5,
        .not_started, none⟩ 5 7 [] =
      .ok [⟨"t1", 5, 12, .pending⟩] ∧
    generateOccurrence ⟨"t1", .recurring, some .monthly, some 5,
        .not_started, none⟩ 5 7 [⟨"t1", 5, 12, .pending⟩] =
      .ok [⟨"t1", 5, 12, .pending⟩] ∧
    List.countP (occKey "t1" 5) [⟨"t1", 5, 12, .pending⟩] = 1 := by
  have h1 : generateOccurrence ⟨"t1", .recurring, some .monthly, some 5,
      .not_started, none⟩ 5 7 [] = .ok [⟨"t1", 5, 12, .pending⟩] := by
    simp [generateOccurrence]
  have h := (c3_generator_idempotent ⟨"t1", .recurring, some .monthly,
    some 5, .not_started, none⟩ 5 7 [] rfl).2 [⟨"t1", 5, 12, .pending⟩] h1
  exact ⟨h1, h.1, h.2 rfl⟩

/-- One task operation preserves the non-recurring invariant: a task
whose `task_type` is `one_time` keeps a null `next_run_date`. -/
theorem applyTaskOp_preserves_no_next_run (t : TaskRec) (op : TaskOp)
    (h : t.task_type = .one_time → t.next_run_date = none) :
    (applyTaskOp t op).task_type = .one_time →
      (applyTaskOp t op).next_run_date = none := by
  cases op with
  | advanceSchedule d =>
      by_cases hr : t.task_type = .recurring
      · intro hh
        simp only [applyTaskOp, hr, if_pos] at hh
        exact TaskType.noConfusion hh
      · simpa [applyTaskOp, hr] using h
  | setStatus s => simpa [applyTaskOp] using h
  | complete now => simpa [applyTaskOp] using h

/-- A sequence of task operations preserves the non-recurring
invariant. -/
theorem applyTaskOps_preserves_no_next_run (ops : List TaskOp) :
    ∀ t : TaskRec, (t.task_type = .one_time → t.next_run_date = none) →
      (applyTaskOps ops t).task_type = .one_time →
        (applyTaskOps ops t).next_run_date = none := by
  induction ops with
  | nil => intro t h; exact h
  | cons op ops ih =>
      intro t h
      exact ih (applyTaskOp t op) (applyTaskOp_preserves_no_next_run t op h)

/-- Claim C8: a task created with task_type `one_time` has a null
`next_run_date`, and this persists after every sequence of operations
on the task. -/
theorem c8_one_time_never_next_run (f : TaskForm) (ops : List TaskOp)
    (h : (applyTaskOps ops (mkTask f)).task_type = .one_time) :
    (applyTaskOps ops (mkTask f)).next_run_date = none := by
  refine applyTaskOps_preserves_no_next_run ops (mkTask f) ?_ h
  intro h1
  have : f.task_type = .one_time := h1
  simp [mkTask, this]

/-- Witness for C8: a concrete one-time task created from a form that
even carries a stray schedule still has no `next_run_date` after a
schedule-advance attempt and a completion. -/
theorem c8_witness :
    (applyTaskOps [.advanceSchedule (some 9), .complete 4]
        (mkTask ⟨"t2", .one_time, some .daily, some 3⟩)).next_run_date =
      none := by
  exact c8_one_time_never_next_run ⟨"t2", .one_time, some .daily, some 3⟩
    [.advanceSchedule (some 9), .complete 4] rfl

/-- Claim C6: a valid transition of a checklist item to `re_requested`
resets its `submitted_at` to null, increments the request cycle, and
schedules a fresh reminder with `retry_count = 0` — a new reminder
independent of the prior cycle's reminder, whatever its retry count. -/
theorem c6_rerequest_resets_and_fresh_reminder (it : ChecklistItem)
    (oldRem : Reminder) (now : Nat)
    (h : it.status = .received ∨ it.status = .under_review) :
    reRequestItem it oldRem now =
      some ({ it with status := .re_requested, submitted_at := none,
                      cycle := it.cycle + 1 }, freshReminder now) ∧
    (freshReminder now).retry_count = 0 ∧
    (freshReminder now).status = .pending := by
  refine ⟨?_, rfl, rfl⟩
  have hstep : itemStep it .reRequest =
      some { it with status := .re_requested, submitted_at := none,
                     cycle := it.cycle + 1 } := by
    simp only [itemStep]
    rw [if_pos h]
  unfold reRequestItem
  rw [hstep]

/-- Witness for C6: re-requesting a concrete under-review item whose old
reminder had already burned 2 retries yields the cleared item and a
fresh reminder with retry_count 0. -/
theorem c6_witness :
    reRequestItem ⟨"PAN card", true, .under_review, some 3, 0⟩
        ⟨.failed, 2, 3, 1, none⟩ 7 =
      some (⟨"PAN card", true, .re_requested, none, 1⟩, freshReminder 7) ∧
    (freshReminder 7).retry_count = 0 := by
  have h := c6_rerequest_resets_and_fresh_reminder
    ⟨"PAN card", true, .under_review, some 3, 0⟩ ⟨.failed, 2, 3, 1, none⟩ 7
    (Or.inr rfl)
  exact ⟨h.1, h.2.1⟩

/-- A dispatch attempt never changes `max_retries`. -/
theorem dispatchStep_max (r : Reminder) (o : DispatchOutcome) :
    (dispatchStep r o).max_retries = r.max_retries := by
  unfold dispatchStep
  by_cases hp : r.status = .pending
  · rw [if_pos hp]
    cases o with
    | success now => rfl
    | failure =>
        by_cases hn : r.retry_count + 1 < r.max_retries
        · rw [if_pos hn]
        · rw [if_neg hn]
  · rw [if_neg hp]

/-- A dispatch attempt never decreases `retry_count`. -/
theorem dispatchStep_retry_le (r : Reminder) (o : DispatchOutcome) :
    r.retry_count ≤ (dispatchStep r o).retry_count := by
  unfold dispatchStep
  by_cases hp : r.status = .pending
  · rw [if_pos hp]
    cases o with
    | success now => exact Nat.le_refl _
    | failure =>
        by_cases hn : r.retry_count + 1 < r.max_retries
        · rw [if_pos hn]; exact Nat.le_succ _
        · rw [if_neg hn]; exact Nat.le_succ _
  · rw [if_neg hp]

/-- A dispatch attempt preserves reminder well-formedness. -/
theorem remWf_dispatchStep (r : Reminder) (o : DispatchOutcome)
    (h : RemWf r) : RemWf (dispatchStep r o) := by
  obtain ⟨h1, h2⟩ := h
  unfold dispatchStep
  by_cases hp : r.status = .pending
  · rw [if_pos hp]
    have hlt := h1 hp
    cases o with
    | success now =>
        exact ⟨fun hcontra => absurd hcontra (by simp), h2⟩
    | failure =>
        by_cases hn : r.retry_count + 1 < r.max_retries
        · rw [if_pos hn]
          exact ⟨fun _ => hn, Nat.le_of_lt hn⟩
        · rw [if_neg hn]
          exact ⟨fun hcontra => absurd hcontra (by simp),
            Nat.succ_le_of_lt hlt⟩
  · rw [if_neg hp]
    exact ⟨h1, h2⟩

/-- A whole dispatch sequence preserves well-formedness. -/
theorem remWf_runDispatch (r : Reminder) (os : List DispatchOutcome)
    (h : RemWf r) : RemWf (runDispatch r os) := by
  induction os generalizing r with
  | nil => exact h
  | cons o os ih => exact ih (dispatchStep r o) (remWf_dispatchStep r o h)

/-- A whole dispatch sequence never changes `max_retries`. -/
theorem runDispatch_max (r : Reminder) (os : List DispatchOutcome) :
    (runDispatch r os).max_retries = r.max_retries := by
  induction os generalizing r with
  | nil => rfl
  | cons o os ih => exact (ih (dispatchStep r o)).trans (dispatchStep_max r o)

/-- `retry_count` is non-decreasing along any dispatch sequence. -/
theorem runDispatch_retry_le (r : Reminder) (os : List DispatchOutcome) :
    r.retry_count ≤ (runDispatch r os).retry_count := by
  induction os generalizing r with
  | nil => exact Nat.le_refl _
  | cons o os ih =>
      exact Nat.le_trans (dispatchStep_retry_le r o) (ih (dispatchStep r o))

/-- A non-pending reminder is untouched by a dispatch attempt. -/
theorem dispatchStep_not_pending (r : Reminder) (o : DispatchOutcome)
    (h : ¬r.status = .pending) : dispatchStep r o = r := by
  unfold dispatchStep
  rw [if_neg h]

/-- A non-pending reminder is untouched by any dispatch sequence. -/
theorem runDispatch_not_pending (r : Reminder) (os : List DispatchOutcome)
    (h : ¬r.status = .pending) : runDispatch r os = r := by
  induction os generalizing r with
  | nil => rfl
  | cons o os ih =>
      show runDispatch (dispatchStep r o) os = r
      rw [dispatchStep_not_pending r o h]
      exact ih r h

/-- Claim C4: over every dispatch sequence on a well-formed reminder,
`retry_count` is monotonically non-decreasing and never exceeds
`max_retries`; a single attempt results in status `failed` exactly when
the reminder was pending, the dispatch failed, and the incremented
retry count reaches `max_retries`; and once the reminder is `cancelled`
or `failed` no dispatch attempt occurs and its state never changes. -/
theorem c4_reminder_retry_engine (r : Reminder) (os : List DispatchOutcome)
    (h : RemWf r) :
    r.retry_count ≤ (runDispatch r os).retry_count ∧
    (runDispatch r os).retry_count ≤ r.max_retries ∧
    (∀ o, (dispatchStep r o).status = .failed ↔
        (r.status = .failed ∨
          (r.status = .pending ∧ o = .failure ∧
            r.retry_count + 1 = r.max_retries))) ∧
    ((r.status = .cancelled ∨ r.status = .failed) →
        dispatchAttempted r = false ∧ runDispatch r os = r) := by
  refine ⟨runDispatch_retry_le r os, ?_, ?_, ?_⟩
  · have hb := (remWf_runDispatch r os h).2
    rwa [runDispatch_max] at hb
  · intro o
    by_cases hp : r.status = .pending
    · have hlt := h.1 hp
      unfold dispatchStep
      rw [if_pos hp]
      cases o with
      | success now => simp [hp]
      | failure =>
          by_cases hn : r.retry_count + 1 < r.max_retries
          · rw [if_pos hn]
            have hne : ¬(r.retry_count + 1 = r.max_retries) := by omega
            simp [hp, hne]
          · rw [if_neg hn]
            have heq : r.retry_count + 1 = r.max_retries := by omega
            simp [hp, heq]
    · rw [dispatchStep_not_pending r o hp]
      constructor
      · intro hf; exact Or.inl hf
      · rintro (hf | ⟨hpend, -, -⟩)
        · exact hf
        · exact absurd hpend hp
  · intro hcf
    have hp : ¬r.status = .pending := by
      rcases hcf with hc | hc <;> rw [hc] <;> decide
    exact ⟨by simp [dispatchAttempted, hp], runDispatch_not_pending r os hp⟩

/-- Witness for C4: a fresh concrete reminder (retry_count 0,
max_retries 3) subjected to three consecutive failures ends failed with
retry_count 3, and the bound and monotonicity hold. -/
theorem c4_witness :
    (0 : Nat) ≤
      (runDispatch ⟨.pending, 0, 3, 0, none⟩
        [.failure, .failure, .failure]).retry_count ∧
    (runDispatch ⟨.pending, 0, 3, 0, none⟩
        [.failure, .failure, .failure]).retry_count ≤ 3 ∧
    (runDispatch ⟨.pending, 0, 3, 0, none⟩
        [.failure, .failure, .failure]).status = .failed ∧
    runDispatch ⟨.failed, 3, 3, 0, none⟩ [.failure] = ⟨.failed, 3, 3, 0, none⟩ := by
  have h := c4_reminder_retry_engine ⟨.pending, 0, 3, 0, none⟩
    [.failure, .failure, .failure] ⟨fun _ => by decide, by decide⟩
  have h2 := c4_reminder_retry_engine ⟨.failed, 3, 3, 0, none⟩ [.failure]
    ⟨fun hx => by exact absurd hx (by decide), by decide⟩
  exact ⟨h.1, h.2.1, rfl, (h2.2.2.2 (Or.inr rfl)).2⟩

/-- `List.all` is invariant under permutation. -/
theorem all_of_perm {α : Type} (p : α → Bool) {l1 l2 : List α}
    (h : l1.Perm l2) : l1.all p = l2.all p := by
  rw [Bool.eq_iff_iff, List.all_eq_true, List.all_eq_true]
  exact ⟨fun hall x hx => hall x (h.mem_iff.mpr hx),
    fun hall x hx => hall x (h.mem_iff.mp hx)⟩

/-- `List.any` is invariant under permutation. -/
theorem any_of_perm {α : Type} (p : α → Bool) {l1 l2 : List α}
    (h : l1.Perm l2) : l1.any p = l2.any p := by
  rw [Bool.eq_iff_iff, List.any_eq_true, List.any_eq_true]
  exact ⟨fun ⟨x, hx, hp⟩ => ⟨x, h.mem_iff.mp hx, hp⟩,
    fun ⟨x, hx, hp⟩ => ⟨x, h.mem_iff.mpr hx, hp⟩⟩

/-- The derived request status only depends on the multiset of item
states: it is invariant under any permutation of the checklist. -/
theorem deriveStatus_of_perm (sentFlag cancelledFlag : Bool)
    {l1 l2 : List ChecklistItem} (h : l1.Perm l2) :
    deriveStatus sentFlag cancelledFlag l1 =
      deriveStatus sentFlag cancelledFlag l2 := by
  unfold deriveStatus mandatoryApproved anyOpen anyProgress anyReRequested
  rw [all_of_perm _ h, any_of_perm _ h,
    any_of_perm (fun i => decide (i.status ≠ .not_received)) h,
    any_of_perm (fun i => decide (i.status = .re_requested)) h]

/-- A sent, non-cancelled request derives `completed` exactly when every
mandatory item is approved. -/
theorem deriveStatus_completed_iff (items : List ChecklistItem) :
    deriveStatus true false items = .completed ↔
      mandatoryApproved items = true := by
  unfold deriveStatus
  by_cases hm : mandatoryApproved items
  · simp [hm]
  · simp only [Bool.not_true, if_neg, hm, if_false, Bool.false_eq_true]
    by_cases h2 : (anyOpen items && anyProgress items) || anyReRequested items
    · simp [h2, hm]
    · simp [h2, hm]

/-- Counterexample for C1: the claim quantifies over every data request,
but a request still in `draft` (never sent) with an empty checklist has
every mandatory item vacuously approved while its derived status is
`draft`, not `completed`, so the claimed equivalence fails. -/
theorem c1_counterexample :
    mandatoryApproved [] = true ∧
    deriveStatus false false [] = .draft ∧
    deriveStatus false false [] ≠ .completed := by
  exact ⟨rfl, rfl, by decide⟩

/-- Claim C1 (amended): for every data request that has been sent and
not cancelled, after any sequence of checklist-item transitions the
derived status is `completed` if and only if every mandatory item is
`approved` (non-mandatory items never block), and the derivation is
invariant under any permutation of the checklist items, hence under any
permutation of the order in which items were approved. -/
theorem c1_completed_iff_mandatory (items0 : List ChecklistItem)
    (evs : List (Nat × ItemEvent)) :
    (deriveStatus true false (applyItemEvents evs items0) = .completed ↔
        mandatoryApproved (applyItemEvents evs items0) = true) ∧
    (∀ items2, (applyItemEvents evs items0).Perm items2 →
        (deriveStatus true false items2 = .completed ↔
          mandatoryApproved (applyItemEvents evs items0) = true)) := by
  refine ⟨deriveStatus_completed_iff _, ?_⟩
  intro items2 hp
  rw [← deriveStatus_of_perm true false hp]
  exact deriveStatus_completed_iff _

/-- Witness for C1 (amended): a sent request with one approved mandatory
item derives `completed`, also after permuting the (singleton)
checklist. -/
theorem c1_witness :
    (deriveStatus true false
        (applyItemEvents [] [⟨"GST return", true, .approved, some 2, 0⟩]) =
          .completed ↔
      mandatoryApproved
        (applyItemEvents [] [⟨"GST return", true, .approved, some 2, 0⟩]) =
          true) ∧
    (deriveStatus true false [⟨"GST return", true, .approved, some 2, 0⟩] =
          .completed ↔
      mandatoryApproved
        (applyItemEvents [] [⟨"GST return", true, .approved, some 2, 0⟩]) =
          true) := by
  have h := c1_completed_iff_mandatory
    [⟨"GST return", true, .approved, some 2, 0⟩] []
  exact ⟨h.1, h.2 [⟨"GST return", true, .approved, some 2, 0⟩]
    (List.Perm.refl _)⟩

end FollowupAi
